import Mathlib

/-! Shallow embedding of the staged pipeline repository
(ex0/stream_processor.py, ex1/data_stream.py, ex2/nexus_pipeline.py).
Pure Python functions become Lean functions; the one mutating method
(SensorStream.process_batch) threads its object state explicitly; code that
can raise returns the exception as a value. Loops that invoke opaque
collaborators (stages, adapters) are instrumented with an invocation count so
that "never invokes" properties are expressible. -/

/-- Python values of the fragment the programs manipulate: None, strings,
integers, lists and string-keyed dicts. Numeric payloads exercised by the
claims are embedded as integers or decimal strings; floating-point formatting
is presentation glue no claim touches. -/
inductive PyVal where
  | none
  | str (s : String)
  | int (n : Int)
  | list (xs : List PyVal)
  | dict (entries : List (String × PyVal))

/-- Python exceptions raised (and possibly caught) by the embedded code. -/
inductive PyErr where
  | valueError (msg : String)
  | typeError (msg : String)
  | indexError (msg : String)
  | zeroDivisionError (msg : String)
deriving DecidableEq

/-- Quote character, used by the Python repr of strings inside containers. -/
def quoteMark : String := String.singleton (Char.ofNat 39)

mutual

/-- Python repr() on the embedded value fragment (used by str() inside
containers). -/
def pyRepr : PyVal → String
  | PyVal.none => "None"
  | PyVal.str s => quoteMark ++ s ++ quoteMark
  | PyVal.int n => toString n
  | PyVal.list xs => "[" ++ pyReprList xs ++ "]"
  | PyVal.dict es => "\x7b" ++ pyReprDict es ++ "\x7d"

/-- Comma-separated reprs of the elements of a Python list. -/
def pyReprList : List PyVal → String
  | [] => ""
  | [x] => pyRepr x
  | x :: y :: xs => pyRepr x ++ ", " ++ pyReprList (y :: xs)

/-- Comma-separated reprs of the entries of a Python dict. -/
def pyReprDict : List (String × PyVal) → String
  | [] => ""
  | [(k, v)] => quoteMark ++ k ++ quoteMark ++ ": " ++ pyRepr v
  | (k, v) :: e :: es =>
      quoteMark ++ k ++ quoteMark ++ ": " ++ pyRepr v ++ ", " ++ pyReprDict (e :: es)

end

/-- Python str(), as used by f-string interpolation: a top-level string prints
bare, containers print via repr. -/
def pyStr : PyVal → String
  | PyVal.none => "None"
  | PyVal.str s => s
  | PyVal.int n => toString n
  | PyVal.list xs => pyRepr (PyVal.list xs)
  | PyVal.dict es => pyRepr (PyVal.dict es)

/-- Whether a value is a Python dict (isinstance(data, dict)). -/
def PyVal.isDict : PyVal → Bool
  | PyVal.dict _ => true
  | _ => false

/-- Whether a value is a Python str (isinstance(data, str)). -/
def PyVal.isStr : PyVal → Bool
  | PyVal.str _ => true
  | _ => false

/-- Whether a value is a Python list. -/
def PyVal.isList : PyVal → Bool
  | PyVal.list _ => true
  | _ => false

/-- Python dict.get(key, default). Dict literals in the embedded programs have
distinct keys, so first-match lookup agrees with Python's semantics. -/
def dictGet (entries : List (String × PyVal)) (key : String) (dflt : PyVal) : PyVal :=
  match entries.lookup key with
  | some v => v
  | Option.none => dflt

/-- Splitting helper over character lists: cuts at every occurrence of sep,
accumulating the current token in reverse. -/
def splitChar (sep : Char) : List Char → List Char → List (List Char)
  | [], acc => [acc.reverse]
  | c :: cs, acc =>
      if c = sep then acc.reverse :: splitChar sep cs []
      else splitChar sep cs (c :: acc)

/-- Python str.split with a one-character separator: cuts at every occurrence,
keeping empty tokens, and yields one token even on the empty string. -/
def pySplit (s : String) (sep : Char) : List String :=
  (splitChar sep s.data []).map String.mk

/-- A processing stage, i.e. `stage.process` of an installed ProcessingStage.
The stages shipped in the source (InputStage, TransformStage, OutputStage) are
pure identity functions; user-installed stages are arbitrary pure transforms,
matching the spec's requirement that a Stage be a pure function. -/
def Stage := PyVal → PyVal

/-- The process method of the source's InputStage: returns data unchanged. -/
def InputStage.process : Stage := fun data => data

/-- The process method of the source's TransformStage: returns data unchanged. -/
def TransformStage.process : Stage := fun data => data

/-- The process method of the source's OutputStage: returns data unchanged. -/
def OutputStage.process : Stage := fun data => data

/-- ProcessingPipeline.run_stages: the loop `for stage in self.stages: result =
stage.process(result)`, instrumented with a count that the loop body bumps once
per stage invocation. The first component is the Python return value. -/
def run_stages : List Stage → PyVal → PyVal × Nat
  | [], data => (data, 0)
  | st :: rest, data =>
      let r := run_stages rest (st data)
      (r.1, r.2 + 1)

/-- Observable outcome of one adapter `process` call: the Python return value
(None on failure), the exception caught by the except-block and printed as the
error cause (none on success), and the number of stage invocations performed. -/
structure ProcOutcome where
  ret : PyVal
  caught : Option PyErr
  stageCalls : Nat

/-- The shape check inlined in CSVAdapter.process:
`isinstance(data, str) and "," in data`. -/
def csvShape : PyVal → Bool
  | PyVal.str s => s.data.contains ','
  | _ => false

/-- JSONAdapter.process: rejects non-dicts by raising
ValueError("Invalid JSON data format"), caught by the except-block which
returns None; on a dict it runs the stage chain (result discarded, as in the
source), reads value/unit with defaults, and returns the formatted string. -/
def JSONAdapter.process (stages : List Stage) (data : PyVal) : ProcOutcome :=
  match data with
  | PyVal.dict entries =>
      let sr := run_stages stages (PyVal.dict entries)
      let value := dictGet entries "value" (PyVal.str "N/A")
      let unit := dictGet entries "unit" (PyVal.str "")
      ⟨PyVal.str ("Processed temperature reading: " ++ pyStr value ++ pyStr unit
          ++ " (Normal range)"),
       Option.none, sr.2⟩
  | _ => ⟨PyVal.none, some (PyErr.valueError "Invalid JSON data format"), 0⟩

/-- CSVAdapter.process: rejects payloads that are not strings containing ","
by raising ValueError("Invalid CSV data format"), caught by the except-block
which returns None; otherwise runs the stage chain, splits on ",", counts
tokens equal to "action", and returns the formatted string. -/
def CSVAdapter.process (stages : List Stage) (data : PyVal) : ProcOutcome :=
  match data with
  | PyVal.str s =>
      if s.data.contains ',' then
        let sr := run_stages stages (PyVal.str s)
        let activities := pySplit s ','
        let count := (activities.filter (fun a => a == "action")).length
        ⟨PyVal.str ("User activity logged: " ++ toString count ++ " actions processed"),
         Option.none, sr.2⟩
      else ⟨PyVal.none, some (PyErr.valueError "Invalid CSV data format"), 0⟩
  | _ => ⟨PyVal.none, some (PyErr.valueError "Invalid CSV data format"), 0⟩

/-- StreamAdapter.process: rejects non-strings by raising
ValueError("Invalid Stream data format"), caught by the except-block which
returns None; otherwise runs the stage chain and returns the fixed summary. -/
def StreamAdapter.process (stages : List Stage) (data : PyVal) : ProcOutcome :=
  match data with
  | PyVal.str s =>
      let sr := run_stages stages (PyVal.str s)
      ⟨PyVal.str "Stream summary: 5 readings, avg: 22.1°C", Option.none, sr.2⟩
  | _ => ⟨PyVal.none, some (PyErr.valueError "Invalid Stream data format"), 0⟩

/-- An ex2 adapter object: its class, its pipeline_id, and its installed
stage list (self.stages, filled by add_stage). -/
inductive Adapter where
  | json (pipeline_id : String) (stages : List Stage)
  | csv (pipeline_id : String) (stages : List Stage)
  | stream (pipeline_id : String) (stages : List Stage)

/-- The pipeline_id attribute set by each adapter's constructor. -/
def Adapter.pipeline_id : Adapter → String
  | Adapter.json i _ => i
  | Adapter.csv i _ => i
  | Adapter.stream i _ => i

/-- Dynamic dispatch of `pipeline.process(data)` to the adapter's class. -/
def Adapter.process : Adapter → PyVal → ProcOutcome
  | Adapter.json _ st, d => JSONAdapter.process st d
  | Adapter.csv _ st, d => CSVAdapter.process st d
  | Adapter.stream _ st, d => StreamAdapter.process st d

/-- NexusManager.chain_pipelines: `result = data; for pipeline in pipelines:
result = pipeline.process(result); return result`, instrumented with the
number of adapter process invocations the loop performs. -/
def chain_pipelines : PyVal → List Adapter → PyVal × Nat
  | data, [] => (data, 0)
  | data, p :: rest =>
      let r := chain_pipelines (p.process data).ret rest
      (r.1, r.2 + 1)

/-- NexusManager.process_data: `for pipeline in self.pipelines:
pipeline.process(data)` with no return statement, so the Python return value
is None; the second component is the instrumented trace of the process calls
the loop makes, in order. -/
def process_data : List Adapter → PyVal → PyVal × List ProcOutcome
  | [], _ => (PyVal.none, [])
  | p :: rest, data =>
      let r := process_data rest data
      (PyVal.none, p.process data :: r.2)

/-- An ex1 SensorStream object: stream_id and total_processed come from
DataStream.__init__ (total_processed starts at 0), stream_type and data_type
from SensorStream.__init__. -/
structure SensorStream where
  stream_id : String
  stream_type : String
  data_type : String
  total_processed : Nat

/-- SensorStream("stream_id"): the constructor chain of the source. -/
def SensorStream.init (stream_id : String) : SensorStream :=
  ⟨stream_id, "Environmental Data", "Sensor data", 0⟩

/-- SensorStream.process_batch: first mutates
`self.total_processed += len(data_batch)`, then returns the f-string reading
`data_batch[0]` — which raises an uncaught IndexError when the batch is empty.
The first component is the object state after the call (the increment has
already happened even on the raising path); the second is the returned report
string or the raised exception. -/
def SensorStream.process_batch (self : SensorStream) (data_batch : List PyVal) :
    SensorStream × Except PyErr String :=
  let updated : SensorStream :=
    ⟨self.stream_id, self.stream_type, self.data_type,
     self.total_processed + data_batch.length⟩
  match data_batch with
  | [] => (updated, Except.error (PyErr.indexError "list index out of range"))
  | x :: rest =>
      (updated,
       Except.ok ("Sensor analysis: " ++ toString (x :: rest).length
         ++ " readings processed, avg temp: " ++ pyStr x ++ "°C"))

/-- Python sum() folded over the elements of a list value: integer elements
add up; any non-integer element raises a TypeError (int + non-int). -/
def sumInts : List PyVal → Except PyErr Int
  | [] => Except.ok 0
  | PyVal.int n :: rest =>
      match sumInts rest with
      | Except.ok s => Except.ok (n + s)
      | Except.error e => Except.error e
  | _ :: _ => Except.error (PyErr.typeError "unsupported operand type for +")

/-- Python sum(data) on the embedded fragment: lists sum their elements;
iterating a string yields its characters, so only the empty string sums (to 0);
a dict iterates its keys, which are strings, so only the empty dict sums;
ints and None are not iterable. -/
def pySum : PyVal → Except PyErr Int
  | PyVal.list xs => sumInts xs
  | PyVal.str s => if s.isEmpty then Except.ok 0
      else Except.error (PyErr.typeError "unsupported operand type for +")
  | PyVal.dict [] => Except.ok 0
  | PyVal.dict (_ :: _) => Except.error (PyErr.typeError "unsupported operand type for +")
  | _ => Except.error (PyErr.typeError "object is not iterable")

/-- Python len(data) on the embedded fragment. -/
def pyLen : PyVal → Except PyErr Nat
  | PyVal.list xs => Except.ok xs.length
  | PyVal.str s => Except.ok s.length
  | PyVal.dict es => Except.ok es.length
  | _ => Except.error (PyErr.typeError "object has no length")

/-- Rounds num/den to the nearest integer, ties to even — the rounding used
when a quotient is formatted to a fixed number of decimals. -/
def roundHalfEven (num den : Nat) : Nat :=
  let q := num / den
  let r := num % den
  if 2 * r < den then q
  else if den < 2 * r then q + 1
  else if q % 2 = 0 then q else q + 1

/-- The f-string fragment avg:.1f for avg = s/n: renders the quotient with one
decimal digit. Modelled by round-half-even on the exact rational s/n, which
agrees with CPython's formatting of the float quotient on the data the
programs handle; binary-float representation error is out of scope. -/
def fmtFixed1 (s : Int) (n : Nat) : String :=
  let sign := if s < 0 then "-" else ""
  let t := roundHalfEven (10 * s.natAbs) n
  sign ++ toString (t / 10) ++ "." ++ toString (t % 10)

/-- NumericProcessor.validate: `try: sum(data); return True except TypeError:
return False`. pySum only ever raises TypeError, which the except catches. -/
def NumericProcessor.validate (data : PyVal) : Bool :=
  match pySum data with
  | Except.ok _ => true
  | Except.error _ => false

/-- NumericProcessor.process: computes `average = sum(data)/len(data)` — a
ZeroDivisionError when the payload is empty — then returns the formatted
report string. No except-block guards this method; the demo harness wraps the
call in try/except ZeroDivisionError instead. -/
def NumericProcessor.process (data : PyVal) : Except PyErr String := do
  let s ← pySum data
  let n ← pyLen data
  if n = 0 then Except.error (PyErr.zeroDivisionError "division by zero")
  else
    Except.ok ("Processed " ++ toString n ++ " numeric values, sum="
      ++ toString s ++ ", avg=" ++ fmtFixed1 s n)

/-- Status field of the spec's Report shape. -/
inductive Status where
  | success
  | failure
deriving DecidableEq

/-- The spec's Report shape: status, producer_id, variant-specific summary,
optional cause, recovered flag. The source has no such structure — adapters
return a bare string or None — so this follows the spec's words, for
comparison against the source's return values. -/
structure Report where
  status : Status
  producer_id : String
  summary : PyVal
  cause : Option PyErr
  recovered : Bool

/-- From the spec's words: whether a returned value has the Report shape the
spec requires external formatters to rely on — a key/value record carrying
status, producer_id, summary and recovered entries (cause is optional). -/
def specReportShaped : PyVal → Bool
  | PyVal.dict es =>
      (es.any (fun e => e.1 == "status")) && (es.any (fun e => e.1 == "producer_id"))
        && (es.any (fun e => e.1 == "summary")) && (es.any (fun e => e.1 == "recovered"))
  | _ => false

/-- Modelled from the spec: the source signals an adapter failure by returning
None with a caught error, and the spec's Report view of such an outcome has
status failure exactly then, the adapter's pipeline_id as producer_id, the
returned value as summary, the caught error as cause, and recovered false. -/
def toReport (a : Adapter) (o : ProcOutcome) : Report :=
  ⟨if o.caught.isSome then Status.failure else Status.success,
   a.pipeline_id, o.ret, o.caught, false⟩

/-- Modelled from the spec: `Coordinator.recover(payload, primary_adapter,
fallback_adapter)` is absent from src — NexusManager offers only add_pipeline,
process_data and chain_pipelines, and the __main__ "Error Recovery Test" only
prints recovery messages — so this definition follows the spec's words: run
the primary's process; if it signals failure (any cause), run the fallback's
process exactly once and return that result tagged recovered=true with the
primary's failure cause; a fallback failure is returned as-is, no retry. The
second component counts fallback process invocations. -/
def recover (payload : PyVal) (primary fallback : Adapter) : Report × Nat :=
  let p := toReport primary (primary.process payload)
  if p.status = Status.failure then
    let f := toReport fallback (fallback.process payload)
    (⟨f.status, f.producer_id, f.summary, p.cause, true⟩, 1)
  else (p, 0)

/-- Every ex2 adapter rejects the Python value None: None is neither a dict
nor a string, so each class's shape check fails and process returns None. -/
theorem adapter_process_none_ret (a : Adapter) : (a.process PyVal.none).ret = PyVal.none := by
  cases a <;> rfl

/-- Chaining from a None intermediate value: every subsequent adapter is still
invoked, rejects None, and passes None on, so the chain ends at None after
invoking the whole remaining list. -/
theorem chain_pipelines_from_none (rest : List Adapter) :
    chain_pipelines PyVal.none rest = (PyVal.none, rest.length) := by
  induction rest with
  | nil => rfl
  | cons p t ih =>
      simp only [chain_pipelines, adapter_process_none_ret, ih, List.length_cons]

/-- C1: for every payload failing an adapter's shape check (JSONAdapter: not a
dict; CSVAdapter: not a string containing ","; StreamAdapter: not a string)
and every installed stage chain, process performs zero stage invocations and
returns the failure value None, with the caught
ValueError("Invalid ... data format") — the code's rendering of the spec's
ValidationError — as the recorded cause. -/
theorem C1_invalid_payload_runs_no_stage (stages : List Stage) (data : PyVal) :
    (data.isDict = false →
      JSONAdapter.process stages data =
        ⟨PyVal.none, some (PyErr.valueError "Invalid JSON data format"), 0⟩)
    ∧ (csvShape data = false →
      CSVAdapter.process stages data =
        ⟨PyVal.none, some (PyErr.valueError "Invalid CSV data format"), 0⟩)
    ∧ (data.isStr = false →
      StreamAdapter.process stages data =
        ⟨PyVal.none, some (PyErr.valueError "Invalid Stream data format"), 0⟩) := by
  refine ⟨?_, ?_, ?_⟩ <;> intro h <;> cases data <;>
    simp_all [PyVal.isDict, PyVal.isStr, csvShape, JSONAdapter.process,
      CSVAdapter.process, StreamAdapter.process]

/-- Witness for C1: a string payload for JSONAdapter, a comma-free string for
CSVAdapter and a dict for StreamAdapter each fail the shape check, run zero
stages (even with a stage installed) and yield None with the ValueError. -/
theorem C1_invalid_payload_runs_no_stage_witness :
    JSONAdapter.process [fun d => d] (PyVal.str "x") =
      ⟨PyVal.none, some (PyErr.valueError "Invalid JSON data format"), 0⟩
    ∧ CSVAdapter.process [fun d => d] (PyVal.str "login") =
      ⟨PyVal.none, some (PyErr.valueError "Invalid CSV data format"), 0⟩
    ∧ StreamAdapter.process [fun d => d] (PyVal.dict []) =
      ⟨PyVal.none, some (PyErr.valueError "Invalid Stream data format"), 0⟩ :=
  ⟨(C1_invalid_payload_runs_no_stage [fun d => d] (PyVal.str "x")).1 rfl,
   (C1_invalid_payload_runs_no_stage [fun d => d] (PyVal.str "login")).2.1 rfl,
   (C1_invalid_payload_runs_no_stage [fun d => d] (PyVal.dict [])).2.2 rfl⟩

/-- C2 counterexample: with payload {} (a dict) the first adapter of the chain
(a CSVAdapter) fails and returns None, yet chain_pipelines performs 2 adapter
invocations, i.e. it still invokes the later adapter — refuting "chain halts
at that adapter ... and never invokes any later adapter in the list". -/
theorem C2_counterexample :
    ((Adapter.csv "CSV_PIPELINE_002" []).process (PyVal.dict [])).ret = PyVal.none
    ∧ (chain_pipelines (PyVal.dict [])
        [Adapter.csv "CSV_PIPELINE_002" [], Adapter.json "JSON_PIPELINE_001" []]).2 = 2 :=
  ⟨rfl, rfl⟩

/-- C2 amended: chain_pipelines never halts early. When the first adapter of
the list fails (returns None), every later adapter is still invoked — the
invocation count is the full list length — each receiving None, which every
ex2 adapter rejects, so the chain's final result is None (a failure value,
though produced by the last adapter rather than by the failing one). -/
theorem C2_chain_feeds_failure_forward (data : PyVal) (a : Adapter)
    (rest : List Adapter) (h : (a.process data).ret = PyVal.none) :
    (chain_pipelines data (a :: rest)).1 = PyVal.none
    ∧ (chain_pipelines data (a :: rest)).2 = rest.length + 1 := by
  simp [chain_pipelines, h, chain_pipelines_from_none]

/-- Witness for C2's amended theorem: a 3-adapter chain whose first adapter
fails on the dict payload invokes all 3 adapters and returns None. -/
theorem C2_chain_feeds_failure_forward_witness :
    (chain_pipelines (PyVal.dict [])
        [Adapter.csv "A" [], Adapter.json "B" [], Adapter.stream "C" []]).1 = PyVal.none
    ∧ (chain_pipelines (PyVal.dict [])
        [Adapter.csv "A" [], Adapter.json "B" [], Adapter.stream "C" []]).2 = 3 :=
  C2_chain_feeds_failure_forward (PyVal.dict []) (Adapter.csv "A" [])
    [Adapter.json "B" [], Adapter.stream "C" []] rfl

/-- C8: the stage chain is associative over concatenation — running chain A on
P and then chain B on A's result equals running the concatenation of A and B
on P — and the empty chain is the identity function. -/
theorem C8_run_stages_append_assoc (A B : List Stage) (P : PyVal) :
    (run_stages (A ++ B) P).1 = (run_stages B (run_stages A P).1).1
    ∧ (run_stages [] P).1 = P := by
  constructor
  · induction A generalizing P with
    | nil => rfl
    | cons st rest ih => simpa [run_stages] using ih (st P)
  · rfl

/-- C10: SensorStream.process_batch on the empty batch raises an uncaught
IndexError("list index out of range") — so no report string is produced — and
the raise happens after self.total_processed was already incremented by the
batch length (here 0), as shown by the state component of the outcome. -/
theorem C10_empty_batch_index_error (s : SensorStream) :
    (s.process_batch []).2 = Except.error (PyErr.indexError "list index out of range")
    ∧ (s.process_batch []).1.total_processed
        = s.total_processed + ([] : List PyVal).length := by
  exact ⟨rfl, rfl⟩

/-- Python sum() over a list of integer values adds them up. -/
theorem sumInts_map_int (xs : List Int) :
    sumInts (xs.map PyVal.int) = Except.ok xs.sum := by
  induction xs with
  | nil => rfl
  | cons a t ih => simp [sumInts, ih]

/-- C3 counterexample: NumericProcessor.validate accepts the empty list
(sum([]) succeeds), yet NumericProcessor.process on the empty list raises
ZeroDivisionError instead of succeeding — validate accepts a payload on which
process then fails. -/
theorem C3_counterexample :
    NumericProcessor.validate (PyVal.list []) = true
    ∧ NumericProcessor.process (PyVal.list [])
        = Except.error (PyErr.zeroDivisionError "division by zero") :=
  ⟨rfl, rfl⟩

/-- C3 amended: validate over-approximates process's domain. For
NumericProcessor, validate accepts every list of integers — including the
empty list, on which process fails with ZeroDivisionError (a case the demo
harness guards with its own try/except) — and process succeeds on every
nonempty one. For JSONAdapter, every payload passing the shape check (a dict)
yields a success: nothing is caught and a report string is returned. -/
theorem C3_validated_payloads (xs : List Int) (stages : List Stage)
    (entries : List (String × PyVal)) :
    NumericProcessor.validate (PyVal.list (xs.map PyVal.int)) = true
    ∧ (xs ≠ [] →
        (NumericProcessor.process (PyVal.list (xs.map PyVal.int))).isOk = true)
    ∧ (JSONAdapter.process stages (PyVal.dict entries)).caught = Option.none
    ∧ (∃ s, (JSONAdapter.process stages (PyVal.dict entries)).ret = PyVal.str s) := by
  refine ⟨?_, ?_, rfl, ⟨_, rfl⟩⟩
  · simp [NumericProcessor.validate, pySum, sumInts_map_int]
  · intro h
    have hn : ¬ xs.length = 0 := fun hl => h (List.length_eq_zero.mp hl)
    simp [NumericProcessor.process, pySum, pyLen, sumInts_map_int, hn,
      Bind.bind, Except.bind, Except.isOk, Except.toBool]

/-- Witness for C3's amended theorem at the demo inputs: the list [1,2,3,4,5]
and a dict payload with string-valued value/unit entries. -/
theorem C3_validated_payloads_witness :
    NumericProcessor.validate (PyVal.list ([1, 2, 3, 4, 5].map PyVal.int)) = true
    ∧ (NumericProcessor.process (PyVal.list ([1, 2, 3, 4, 5].map PyVal.int))).isOk = true
    ∧ (JSONAdapter.process []
        (PyVal.dict [("value", PyVal.str "23.5"), ("unit", PyVal.str "°C")])).caught
        = Option.none
    ∧ (∃ s, (JSONAdapter.process []
        (PyVal.dict [("value", PyVal.str "23.5"), ("unit", PyVal.str "°C")])).ret
        = PyVal.str s) := by
  obtain ⟨h1, h2, h3, h4⟩ := C3_validated_payloads [1, 2, 3, 4, 5] []
    [("value", PyVal.str "23.5"), ("unit", PyVal.str "°C")]
  exact ⟨h1, h2 (by decide), h3, h4⟩

/-- C4 counterexample: with one registered adapter, process_data returns the
Python value None — not an ordered list of exactly one Report. -/
theorem C4_counterexample :
    (process_data [Adapter.json "JSON_PIPELINE_001" []] (PyVal.dict [])).1 = PyVal.none
    ∧ PyVal.isList
        (process_data [Adapter.json "JSON_PIPELINE_001" []] (PyVal.dict [])).1 = false :=
  ⟨rfl, rfl⟩

/-- C4 amended: process_data does call process on every registered adapter
with the same payload, in registration order — its call trace is exactly the
per-adapter map of process over the registered list, so each adapter's outcome
is independent of the others and a failure stops nothing — but the method
returns None, discarding the outcomes instead of returning a list of Reports. -/
theorem C4_broadcast_invokes_all_returns_none (pipelines : List Adapter) (data : PyVal) :
    (process_data pipelines data).2 = pipelines.map (fun p => p.process data)
    ∧ (process_data pipelines data).1 = PyVal.none := by
  constructor
  · induction pipelines with
    | nil => rfl
    | cons p t ih => simp [process_data, ih]
  · cases pipelines <;> rfl

/-- C5 (recover modelled from the spec, since src has no recover): the primary
is processed; exactly when it signals failure — regardless of cause — the
fallback's process runs exactly once and its Report is returned tagged
recovered=true with the primary's failure cause (a failing fallback's Report
is returned the same way, with no retry); on primary success the fallback is
never invoked and the primary's Report is returned untagged. -/
theorem C5_recover_fallback_once (payload : PyVal) (primary fallback : Adapter) :
    ((primary.process payload).caught.isSome = true →
      recover payload primary fallback =
        (⟨(toReport fallback (fallback.process payload)).status,
          fallback.pipeline_id,
          (fallback.process payload).ret,
          (primary.process payload).caught,
          true⟩, 1))
    ∧ ((primary.process payload).caught.isSome = false →
      recover payload primary fallback
        = (toReport primary (primary.process payload), 0)) := by
  constructor <;> intro h <;> simp [recover, toReport, h]

/-- Witness for C5 at the demo's recovery scenario: the CSVAdapter fails on
the stream payload (no comma), the StreamAdapter fallback succeeds, and
recover returns the fallback's success Report tagged recovered=true with the
primary's ValueError cause, after exactly one fallback invocation. -/
theorem C5_recover_fallback_once_witness :
    ((Adapter.csv "CSV_PIPELINE_002" []).process
        (PyVal.str "Real-time sensor stream")).caught.isSome = true
    ∧ recover (PyVal.str "Real-time sensor stream")
        (Adapter.csv "CSV_PIPELINE_002" []) (Adapter.stream "STREAM_PIPELINE_003" []) =
      (⟨Status.success, "STREAM_PIPELINE_003",
        PyVal.str "Stream summary: 5 readings, avg: 22.1°C",
        some (PyErr.valueError "Invalid CSV data format"), true⟩, 1) :=
  ⟨rfl,
   (C5_recover_fallback_once (PyVal.str "Real-time sensor stream")
      (Adapter.csv "CSV_PIPELINE_002" []) (Adapter.stream "STREAM_PIPELINE_003" [])).1 rfl⟩

/-- C6 counterexample: on a well-shaped record payload, JSONAdapter.process
returns the single opaque string "Processed temperature reading: 23.5°C
(Normal range)" — a value without the spec's Report shape (no status,
producer_id, summary or recovered fields). -/
theorem C6_counterexample :
    (JSONAdapter.process []
        (PyVal.dict [("value", PyVal.str "23.5"), ("unit", PyVal.str "°C")])).ret
      = PyVal.str "Processed temperature reading: 23.5°C (Normal range)"
    ∧ specReportShaped (JSONAdapter.process []
        (PyVal.dict [("value", PyVal.str "23.5"), ("unit", PyVal.str "°C")])).ret = false :=
  ⟨rfl, rfl⟩

/-- C6 amended: for every adapter and payload, process returns either None (on
failure) or a single plain string — never a structured value carrying the
spec's Report fields (status, producer_id, summary, cause, recovered). -/
theorem C6_process_returns_plain_string (a : Adapter) (data : PyVal) :
    ((a.process data).ret = PyVal.none ∨ ∃ s, (a.process data).ret = PyVal.str s)
    ∧ specReportShaped (a.process data).ret = false := by
  have key : (a.process data).ret = PyVal.none
      ∨ ∃ s, (a.process data).ret = PyVal.str s := by
    cases a with
    | json i st => cases data <;> simp [Adapter.process, JSONAdapter.process]
    | csv i st =>
        cases data with
        | str s =>
            by_cases hc : ',' ∈ s.data <;>
              simp [Adapter.process, CSVAdapter.process, hc]
        | none => exact Or.inl rfl
        | int n => exact Or.inl rfl
        | list xs => exact Or.inl rfl
        | dict es => exact Or.inl rfl
    | stream i st => cases data <;> simp [Adapter.process, StreamAdapter.process]
  refine ⟨key, ?_⟩
  rcases key with h | ⟨s, h⟩ <;> rw [h] <;> rfl

/-- C7 counterexample: SensorStream.process_batch mutates the adapter object —
after one call on a 2-element batch, the object's total_processed is 2, not
the 0 it started with, so a processed count does accumulate on the object. -/
theorem C7_counterexample :
    ((SensorStream.init "SENSOR_001").process_batch
        [PyVal.int 22, PyVal.int 65]).1.total_processed = 2
    ∧ (SensorStream.init "SENSOR_001").total_processed = 0 :=
  ⟨rfl, rfl⟩

/-- C7 amended: the ex2 adapters' process is embedded as a pure function of
the adapter and the payload — the source methods never assign to self and only
derive new values from data — but the ex1 streams are not stateless:
SensorStream.process_batch adds the batch length to self.total_processed on
every call, so the running total accumulates across consecutive calls (the
other object attributes are untouched). -/
theorem C7_streams_accumulate_state (s : SensorStream) (b1 b2 : List PyVal) :
    ((s.process_batch b1).1.process_batch b2).1.total_processed
      = s.total_processed + b1.length + b2.length
    ∧ (s.process_batch b1).1.total_processed = s.total_processed + b1.length
    ∧ (s.process_batch b1).1.stream_id = s.stream_id := by
  have st : ∀ (t : SensorStream) (b : List PyVal),
      (t.process_batch b).1
        = ⟨t.stream_id, t.stream_type, t.data_type, t.total_processed + b.length⟩ := by
    intro t b; cases b <;> rfl
  simp [st]

/-- C9 counterexample: on the payload "action,login,action" the CSVAdapter's
report is exactly "User activity logged: 2 actions processed" — it states the
marker count 2 but nowhere states the total token count 3 (the digit 3 does
not occur in the report at all). -/
theorem C9_counterexample :
    (CSVAdapter.process [] (PyVal.str "action,login,action")).ret
      = PyVal.str "User activity logged: 2 actions processed"
    ∧ ("User activity logged: 2 actions processed").data.contains '3' = false :=
  ⟨rfl, by decide⟩

/-- C9 amended: the CSVAdapter splits "action,login,action" on "," into the 3
tokens [action, login, action], counts the 2 tokens equal to the marker
"action", and produces a report stating only that marker count ("User activity
logged: 2 actions processed"); the total token count is not included in the
report. -/
theorem C9_delimited_scenario :
    pySplit "action,login,action" ',' = ["action", "login", "action"]
    ∧ (pySplit "action,login,action" ',').length = 3
    ∧ ((pySplit "action,login,action" ',').filter (fun a => a == "action")).length = 2
    ∧ (CSVAdapter.process [] (PyVal.str "action,login,action")).ret
        = PyVal.str "User activity logged: 2 actions processed" :=
  ⟨by decide, by decide, by decide, rfl⟩
